import Mathlib

/-!
Shallow embedding of the YouTube channel survey application (src/app.py):
the date parser `parse_date`, the creation-date filter of `search_channels`,
and the growth analyzer `analyze_channels_growth`, together with proofs of
the specification claims about them.

Modelling conventions:
* Python `datetime` values are the structure `Datetime` below: seven
  non-negative integer fields plus an optional UTC-offset (in microseconds);
  `tz = none` models a naive datetime, `tz = some off` an aware one.
* Python exceptions (`ValueError` from parsing, `ZeroDivisionError`,
  `TypeError` from mixed naive/aware arithmetic) are modelled by `Option`:
  `none` is a raised, propagating exception.
* Python `float` division of integer counts is modelled by exact rational
  (`ℚ`) division; the claims under study are about the algebraic shape of
  the computed rates, not about binary floating-point rounding.
* `datetime.now()` is read inline in the source; following the spec's
  design note ("pass the current instant as an explicit parameter"), the
  embedding passes `now` explicitly.
-/

namespace YTSurvey

/-- Numeric value of a decimal digit character (`c.toNat - 48`). -/
def digitVal (c : Char) : Nat := c.toNat - 48

/-- The character for a decimal digit `n < 10`. -/
def digitChar (n : Nat) : Char := Char.ofNat (48 + n)

/-- Embedding of a Python `datetime.datetime` value.  `tz = none` is a naive
datetime; `tz = some off` is an aware datetime with UTC offset `off`
microseconds (e.g. `some 0` for `timezone.utc`, produced by parsing an
explicit `+00:00` designator). -/
structure Datetime where
  year : Nat
  month : Nat
  day : Nat
  hour : Nat
  minute : Nat
  second : Nat
  microsecond : Nat
  tz : Option Int
deriving Repr, DecidableEq

/-- Gregorian leap-year test, as in Python `calendar`/`datetime`. -/
def isLeapYear (y : Nat) : Bool := y % 4 == 0 && (y % 100 != 0 || y % 400 == 0)

/-- Number of days in month `m` of year `y` (Python `calendar.monthrange`). -/
def daysInMonth (y m : Nat) : Nat :=
  if m = 2 then (if isLeapYear y then 29 else 28)
  else if m = 4 ∨ m = 6 ∨ m = 9 ∨ m = 11 then 30
  else 31

/-- Validity of a calendar date, as enforced by the `datetime` constructor
(`MINYEAR = 1`, `MAXYEAR = 9999`). -/
def validYMD (y m d : Nat) : Bool :=
  1 ≤ y && y ≤ 9999 && 1 ≤ m && m ≤ 12 && 1 ≤ d && d ≤ daysInMonth y m

/-- Validity of a time of day, as enforced by the `datetime` constructor. -/
def validHMS (h mi s : Nat) : Bool := h ≤ 23 && mi ≤ 59 && s ≤ 59

/-- Days before January 1st of year `y` in the proleptic Gregorian calendar
(Python `datetime._days_before_year`). -/
def daysBeforeYear (y : Nat) : Nat :=
  (y - 1) * 365 + (y - 1) / 4 - (y - 1) / 100 + (y - 1) / 400

/-- Days in year `y` strictly before month `m`
(Python `datetime._days_before_month`). -/
def daysBeforeMonth (y m : Nat) : Nat :=
  (match m with
   | 1 => 0 | 2 => 31 | 3 => 59 | 4 => 90 | 5 => 120 | 6 => 151 | 7 => 181
   | 8 => 212 | 9 => 243 | 10 => 273 | 11 => 304 | 12 => 334 | _ => 0) +
  (if 3 ≤ m && isLeapYear y then 1 else 0)

/-- Proleptic Gregorian ordinal of the date part (Python `date.toordinal`). -/
def toOrdinal (dt : Datetime) : Nat :=
  daysBeforeYear dt.year + daysBeforeMonth dt.year dt.month + dt.day

/-- Total microseconds of the wall-clock fields of `dt`, counted from the
calendar epoch, ignoring any timezone.  For valid datetimes this is a
strictly monotone injection of Python's field-tuple order, so chronological
comparison of two naive datetimes is comparison of `naiveMicros`. -/
def naiveMicros (dt : Datetime) : Int :=
  ((toOrdinal dt * 86400 + dt.hour * 3600 + dt.minute * 60 + dt.second) * 1000000
    + dt.microsecond : Nat)

/-- UTC-adjusted microseconds of an aware datetime; for a naive datetime the
wall-clock value itself. -/
def utcMicros (dt : Datetime) : Int :=
  match dt.tz with
  | none => naiveMicros dt
  | some off => naiveMicros dt - off

/-- Python `==` on datetimes: naive and aware values always compare unequal;
two naive values compare by fields; two aware values compare by UTC instant. -/
def pyEq (a b : Datetime) : Bool :=
  match a.tz, b.tz with
  | none, none => a == b
  | some ta, some tb => (naiveMicros a - ta) == (naiveMicros b - tb)
  | _, _ => false

/-- Python `<` on datetimes: defined only when both are naive or both aware
(mixing raises `TypeError`, modelled as `none`). -/
def pyLt (a b : Datetime) : Option Bool :=
  match a.tz, b.tz with
  | none, none => some (decide (naiveMicros a < naiveMicros b))
  | some ta, some tb => some (decide (naiveMicros a - ta < naiveMicros b - tb))
  | _, _ => none

/-- Python `>` on datetimes, by symmetry with `pyLt`. -/
def pyGt (a b : Datetime) : Option Bool := pyLt b a

/-- The `.days` attribute of the Python timedelta `a - b`: the difference in
microseconds, floor-divided by the microseconds of one day.  `none` models
the `TypeError` raised when subtracting naive and aware datetimes. -/
def subDays (a b : Datetime) : Option Int :=
  match a.tz, b.tz with
  | none, none => some ((naiveMicros a - naiveMicros b).fdiv 86400000000)
  | some ta, some tb =>
      some (((naiveMicros a - ta) - (naiveMicros b - tb)).fdiv 86400000000)
  | _, _ => none

/-! ### Character-level parsers for the two `strptime` formats

CPython's `_strptime` compiles each format directive to a regular
expression alternation and matches the whole input, case-insensitively for
letters.  The relevant directives:
`%Y` = four digits, `%m` = `1[0-2]|0[1-9]|[1-9]`, `%d` =
`3[01]|[12][0-9]|0[1-9]|[1-9]`, `%H` = `2[0-3]|[0-1][0-9]|[0-9]`,
`%M` = `[0-5][0-9]|[0-9]`, `%S` = `6[0-1]|[0-5][0-9]|[0-9]`,
`%f` = one to six digits (right-padded to microseconds).  A match is then
fed to the `datetime` constructor, whose `ValueError` on an invalid
calendar date (or a leap second) is caught by `parse_date` like a parse
failure.  Each parser consumes a prefix of the character list and returns
the parsed value with the unconsumed suffix. -/

/-- Parse `%Y`: exactly four decimal digits. -/
def parseY : List Char → Option (Nat × List Char)
  | a :: b :: c :: d :: rest =>
    if a.isDigit && b.isDigit && c.isDigit && d.isDigit then
      some (((digitVal a * 10 + digitVal b) * 10 + digitVal c) * 10 + digitVal d, rest)
    else none
  | _ => none

/-- Parse `%m`: `1[0-2]|0[1-9]|[1-9]`, two-digit alternatives first. -/
def parseMonth : List Char → Option (Nat × List Char)
  | c1 :: c2 :: rest =>
    if c1 = '1' && (c2 = '0' || c2 = '1' || c2 = '2') then
      some (10 + digitVal c2, rest)
    else if c1 = '0' && ('1' ≤ c2 && c2 ≤ '9') then some (digitVal c2, rest)
    else if '1' ≤ c1 && c1 ≤ '9' then some (digitVal c1, c2 :: rest)
    else none
  | [c1] => if '1' ≤ c1 && c1 ≤ '9' then some (digitVal c1, []) else none
  | [] => none

/-- Parse `%d`: `3[01]|[12][0-9]|0[1-9]|[1-9]`. -/
def parseDay : List Char → Option (Nat × List Char)
  | c1 :: c2 :: rest =>
    if c1 = '3' && (c2 = '0' || c2 = '1') then some (30 + digitVal c2, rest)
    else if (c1 = '1' || c1 = '2') && c2.isDigit then
      some (digitVal c1 * 10 + digitVal c2, rest)
    else if c1 = '0' && ('1' ≤ c2 && c2 ≤ '9') then some (digitVal c2, rest)
    else if '1' ≤ c1 && c1 ≤ '9' then some (digitVal c1, c2 :: rest)
    else none
  | [c1] => if '1' ≤ c1 && c1 ≤ '9' then some (digitVal c1, []) else none
  | [] => none

/-- Parse `%H`: `2[0-3]|[0-1][0-9]|[0-9]`. -/
def parseHour : List Char → Option (Nat × List Char)
  | c1 :: c2 :: rest =>
    if c1 = '2' && ('0' ≤ c2 && c2 ≤ '3') then some (20 + digitVal c2, rest)
    else if (c1 = '0' || c1 = '1') && c2.isDigit then
      some (digitVal c1 * 10 + digitVal c2, rest)
    else if c1.isDigit then some (digitVal c1, c2 :: rest)
    else none
  | [c1] => if c1.isDigit then some (digitVal c1, []) else none
  | [] => none

/-- Parse `%M`: `[0-5][0-9]|[0-9]`. -/
def parseMinute : List Char → Option (Nat × List Char)
  | c1 :: c2 :: rest =>
    if ('0' ≤ c1 && c1 ≤ '5') && c2.isDigit then
      some (digitVal c1 * 10 + digitVal c2, rest)
    else if c1.isDigit then some (digitVal c1, c2 :: rest)
    else none
  | [c1] => if c1.isDigit then some (digitVal c1, []) else none
  | [] => none

/-- Parse `%S`: `6[0-1]|[0-5][0-9]|[0-9]` (leap seconds match the regex and
are rejected later by the `datetime` constructor). -/
def parseSecond : List Char → Option (Nat × List Char)
  | c1 :: c2 :: rest =>
    if c1 = '6' && (c2 = '0' || c2 = '1') then some (60 + digitVal c2, rest)
    else if ('0' ≤ c1 && c1 ≤ '5') && c2.isDigit then
      some (digitVal c1 * 10 + digitVal c2, rest)
    else if c1.isDigit then some (digitVal c1, c2 :: rest)
    else none
  | [c1] => if c1.isDigit then some (digitVal c1, []) else none
  | [] => none

/-- Auxiliary digit accumulator for `%f`: consume at most `k` leading digit
characters, returning accumulated value, digit count and the suffix. -/
def parseFracAux : Nat → Nat → Nat → List Char → Nat × Nat × List Char
  | 0, acc, n, rest => (acc, n, rest)
  | _ + 1, acc, n, [] => (acc, n, [])
  | k + 1, acc, n, c :: rest =>
    if c.isDigit then parseFracAux k (acc * 10 + digitVal c) (n + 1) rest
    else (acc, n, c :: rest)

/-- Parse `%f`: one to six digits, right-padded with zeros to microseconds
(`datetime.strptime` sets `microsecond = int(frac.ljust(6, "0"))`). -/
def parseFrac (s : List Char) : Option (Nat × List Char) :=
  match parseFracAux 6 0 0 s with
  | (_, 0, _) => none
  | (v, n, rest) => some (v * 10 ^ (6 - n), rest)

/-- Consume one expected literal character. -/
def litChar (c : Char) : List Char → Option (List Char)
  | x :: rest => if x = c then some rest else none
  | [] => none

/-- Consume the literal `T` of the format (case-insensitive, as `_strptime`
compiles its regex with `IGNORECASE`). -/
def litT : List Char → Option (List Char)
  | x :: rest => if x = 'T' || x = 't' then some rest else none
  | [] => none

/-- Consume the literal `Z` of the format (case-insensitive). -/
def litZ : List Char → Option (List Char)
  | x :: rest => if x = 'Z' || x = 'z' then some rest else none
  | [] => none

/-- Construct a naive datetime, subject to the `datetime` constructor's
range checks (`ValueError` on an invalid date or a leap second is modelled
as `none`). -/
def mkNaive (y m d h mi s us : Nat) : Option Datetime :=
  if validYMD y m d && validHMS h mi s then some ⟨y, m, d, h, mi, s, us, none⟩
  else none

/-- Shared date-time part `%Y-%m-%dT%H:%M:%S` of both `strptime` formats in
`parse_date`. -/
def parseYmdHms (s : List Char) : Option (Nat × Nat × Nat × Nat × Nat × Nat × List Char) := do
  let (y, s) ← parseY s
  let s ← litChar '-' s
  let (m, s) ← parseMonth s
  let s ← litChar '-' s
  let (d, s) ← parseDay s
  let s ← litT s
  let (h, s) ← parseHour s
  let s ← litChar ':' s
  let (mi, s) ← parseMinute s
  let s ← litChar ':' s
  let (sec, s) ← parseSecond s
  some (y, m, d, h, mi, sec, s)

/-- First attempt of `parse_date`:
`datetime.strptime(date_str, "%Y-%m-%dT%H:%M:%S.%fZ")`. -/
def strptimeFracZ (s : List Char) : Option Datetime := do
  let (y, m, d, h, mi, sec, s) ← parseYmdHms s
  let s ← litChar '.' s
  let (us, s) ← parseFrac s
  let s ← litZ s
  match s with
  | [] => mkNaive y m d h mi sec us
  | _ => none

/-- Second attempt of `parse_date`:
`datetime.strptime(date_str, "%Y-%m-%dT%H:%M:%SZ")`. -/
def strptimeNoFracZ (s : List Char) : Option Datetime := do
  let (y, m, d, h, mi, sec, s) ← parseYmdHms s
  let s ← litZ s
  match s with
  | [] => mkNaive y m d h mi sec 0
  | _ => none

/-! ### The `fromisoformat` fallback

`datetime.fromisoformat` (CPython 3.10 semantics: the inverse of
`datetime.isoformat`) accepts `YYYY-MM-DD[*HH[:MM[:SS[.fff[fff]]]][±HH:MM[:SS]]]`
where `*` is any single separator character; sub-minute fractional offsets
are not modelled.  The constructor's range checks apply as in `mkNaive`. -/

/-- Parse exactly two decimal digits. -/
def parse2Strict : List Char → Option (Nat × List Char)
  | a :: b :: rest =>
    if a.isDigit && b.isDigit then some (digitVal a * 10 + digitVal b, rest)
    else none
  | _ => none

/-- Parse the strict `YYYY-MM-DD` date part of `fromisoformat`. -/
def isoDate (s : List Char) : Option (Nat × Nat × Nat × List Char) := do
  let (y, s) ← parseY s
  let s ← litChar '-' s
  let (m, s) ← parse2Strict s
  let s ← litChar '-' s
  let (d, s) ← parse2Strict s
  some (y, m, d, s)

/-- Parse the fractional-second part of `fromisoformat`: exactly three or
exactly six digits, scaled to microseconds. -/
def isoFrac : List Char → Option (Nat × List Char)
  | a :: b :: c :: rest =>
    if a.isDigit && b.isDigit && c.isDigit then
      match rest with
      | d :: e :: f :: rest2 =>
        if d.isDigit then
          if e.isDigit && f.isDigit then
            some ((((((digitVal a * 10 + digitVal b) * 10 + digitVal c) * 10
              + digitVal d) * 10 + digitVal e) * 10 + digitVal f), rest2)
          else none
        else some (((digitVal a * 10 + digitVal b) * 10 + digitVal c) * 1000, rest)
      | [d] =>
        if d.isDigit then none
        else some (((digitVal a * 10 + digitVal b) * 10 + digitVal c) * 1000, [d])
      | [d, e] =>
        if d.isDigit then none
        else some (((digitVal a * 10 + digitVal b) * 10 + digitVal c) * 1000, [d, e])
      | [] => some (((digitVal a * 10 + digitVal b) * 10 + digitVal c) * 1000, [])
    else none
  | _ => none

/-- Parse the time part `HH[:MM[:SS[.frac]]]` of `fromisoformat`. -/
def isoTime (s : List Char) : Option (Nat × Nat × Nat × Nat × List Char) := do
  let (h, s) ← parse2Strict s
  match s with
  | [] => some (h, 0, 0, 0, [])
  | c :: s2 =>
    if c = ':' then do
      let (mi, s3) ← parse2Strict s2
      match s3 with
      | [] => some (h, mi, 0, 0, [])
      | c2 :: s4 =>
        if c2 = ':' then do
          let (sec, s5) ← parse2Strict s4
          match s5 with
          | [] => some (h, mi, sec, 0, [])
          | c3 :: s6 =>
            if c3 = '.' then do
              let (us, s7) ← isoFrac s6
              some (h, mi, sec, us, s7)
            else some (h, mi, sec, 0, c3 :: s6)
        else some (h, mi, 0, 0, c2 :: s4)
    else some (h, 0, 0, 0, c :: s2)

/-- Parse the optional signed offset `±HH:MM[:SS]` of `fromisoformat`,
returning the offset in microseconds.  `timezone` demands an absolute
offset strictly below 24 hours. -/
def isoTzOffset : List Char → Option (Option Int × List Char)
  | [] => some (none, [])
  | c :: rest =>
    if c = '+' || c = '-' then
      (do
        let (oh, s1) ← parse2Strict rest
        let s2 ← litChar ':' s1
        let (om, s3) ← parse2Strict s2
        let (os, s4) ←
          (match s3 with
           | [] => some ((0 : Nat), ([] : List Char))
           | c2 :: s5 =>
             if c2 = ':' then
               (match parse2Strict s5 with
                | some (os, s6) => some (os, s6)
                | none => none)
             else some (0, c2 :: s5))
        let total : Int := ((oh * 3600 + om * 60 + os : Nat) : Int) * 1000000
        if total < 86400000000 then
          some (some (if c = '-' then -total else total), s4)
        else none)
    else some (none, c :: rest)

/-- Third attempt of `parse_date`:
`datetime.fromisoformat(...)` on the whole (already `Z`-substituted) string. -/
def fromisoformat (s : List Char) : Option Datetime := do
  let (y, m, d, rest) ← isoDate s
  if validYMD y m d then
    match rest with
    | [] => some ⟨y, m, d, 0, 0, 0, 0, none⟩
    | _sep :: tstr => do
      let (h, mi, sec, us, s1) ← isoTime tstr
      let (tz, s2) ← isoTzOffset s1
      if validHMS h mi sec && s2 = [] then some ⟨y, m, d, h, mi, sec, us, tz⟩
      else none
  else none

/-- The `date_str.replace("Z", "+00:00")` preprocessing of the third
attempt (case-sensitive, every occurrence). -/
def replaceZ : List Char → List Char
  | [] => []
  | c :: rest =>
    if c = 'Z' then '+' :: '0' :: '0' :: ':' :: '0' :: '0' :: replaceZ rest
    else c :: replaceZ rest

/-- Embedding of `parse_date` (src/app.py:17-28): try the fractional-`Z`
`strptime` format, then the fraction-less one, then `fromisoformat` after
substituting `Z` with `+00:00`.  `none` models an uncaught, propagating
`ValueError` (the spec's `DateParseError`). -/
def parse_date (s : List Char) : Option Datetime :=
  match strptimeFracZ s with
  | some dt => some dt
  | none =>
    match strptimeNoFracZ s with
    | some dt => some dt
    | none => fromisoformat (replaceZ s)

/-! ### Data model and growth analyzer -/

/-- One discovered channel, as built by `get_channel_stats`
(src/app.py:71-78).  `published_at` is the raw timestamp string. -/
structure ChannelSummary where
  channel_id : String
  title : String
  subscriber_count : Nat
  view_count : Nat
  video_count : Nat
  published_at : List Char
deriving Repr, DecidableEq

/-- One result row of `analyze_channels_growth` (src/app.py:96-106).
Rates are exact rationals modelling the Python float ratios. -/
structure GrowthRecord where
  channel_name : String
  channel_id : String
  current_subs : Nat
  current_views : Nat
  published_at : List Char
  days_since_creation : Int
  daily_subs : ℚ
  daily_views : ℚ
  growth_rate : ℚ
deriving Repr, DecidableEq

/-- Body of the per-channel loop of `analyze_channels_growth`
(src/app.py:84-106): parse `published_at`, take the elapsed whole days to
`now`, divide the counts by it.  `none` models a propagating exception:
`ValueError` from `parse_date`, `TypeError` from mixed naive/aware
subtraction, or `ZeroDivisionError` when the elapsed days are zero.  A
negative elapsed-day count raises nothing and produces negative rates,
exactly as the source does. -/
def analyzeStep (now : Datetime) (c : ChannelSummary) : Option GrowthRecord := do
  let p ← parse_date c.published_at
  let days ← subDays now p
  if days = 0 then none
  else
    some { channel_name := c.title
           channel_id := c.channel_id
           current_subs := c.subscriber_count
           current_views := c.view_count
           published_at := c.published_at
           days_since_creation := days
           daily_subs := (c.subscriber_count : ℚ) / (days : ℚ)
           daily_views := (c.view_count : ℚ) / (days : ℚ)
           growth_rate := (c.subscriber_count : ℚ) / (days : ℚ) * 100 }

/-- The `results` accumulation loop of `analyze_channels_growth`
(src/app.py:82-106), in input order; the first raised exception aborts the
whole analysis. -/
def analyzeList (now : Datetime) : List ChannelSummary → Option (List GrowthRecord)
  | [] => some []
  | c :: rest => do
    let r ← analyzeStep now c
    let rs ← analyzeList now rest
    some (r :: rs)

/-- Comparison used to model `results.sort(key=lambda x: x["growth_rate"],
reverse=True)`: `a` may precede `b` iff `a`'s growth rate is at least
`b`'s.  Python's sort is stable and `reverse=True` preserves stability, so
the sorted output is the unique `growthLe`-sorted stable permutation,
which `List.mergeSort` computes. -/
def growthLe (a b : GrowthRecord) : Bool := decide (b.growth_rate ≤ a.growth_rate)

/-- Embedding of `analyze_channels_growth` (src/app.py:80-110).  The `days`
parameter of the source (default `30`) is kept; the source never reads it.
`now` is the inline `datetime.now()` passed explicitly. -/
def analyze_channels_growth (channels : List ChannelSummary) (now : Datetime)
    (days : Nat) : Option (List GrowthRecord) :=
  match analyzeList now channels with
  | none => none
  | some results => some (results.mergeSort growthLe)

/-! ### The creation-date filter of `search_channels` -/

/-- The date test applied to one fetched channel inside the loop of
`search_channels` (src/app.py:47-52): parse `published_at`; skip the
channel (`some false`) when a supplied `min_date` exceeds it or a supplied
`max_date` is below it, keep it (`some true`) otherwise.  `none` models a
propagating exception (`ValueError` from parsing, or `TypeError` from
comparing naive with aware).  As in the source, the `min_date` comparison
short-circuits the `max_date` one. -/
def channelKeep (minD maxD : Option Datetime) (c : ChannelSummary) : Option Bool := do
  let p ← parse_date c.published_at
  let dropMin ←
    match minD with
    | some m => pyLt p m
    | none => some false
  if dropMin then some false
  else do
    let dropMax ←
      match maxD with
      | some m => pyGt p m
      | none => some false
    some (!dropMax)

/-- The filtering accumulation of `search_channels` (src/app.py:43-55)
over the channels whose stats resolved, in upstream order: keep exactly
those passing `channelKeep`. -/
def searchFilter (minD maxD : Option Datetime) :
    List ChannelSummary → Option (List ChannelSummary)
  | [] => some []
  | c :: rest => do
    let keep ← channelKeep minD maxD c
    let others ← searchFilter minD maxD rest
    some (if keep then c :: others else others)

/-! ### Canonical textual shapes of an instant

The three accepted textual shapes of spec §4.1, written canonically with
zero-padded fields: shape (a) `YYYY-MM-DDTHH:MM:SS.ffffffZ` (printed here
with a zero fraction), shape (b) `YYYY-MM-DDTHH:MM:SSZ`, and the general
ISO-8601 shape with an explicit zero offset `YYYY-MM-DDTHH:MM:SS+00:00`. -/

/-- Zero-padded two-digit decimal rendering. -/
def pad2 (n : Nat) : List Char := [digitChar (n / 10), digitChar (n % 10)]

/-- Zero-padded four-digit decimal rendering. -/
def pad4 (n : Nat) : List Char :=
  [digitChar (n / 1000), digitChar (n / 100 % 10), digitChar (n / 10 % 10), digitChar (n % 10)]

/-- The common `YYYY-MM-DDTHH:MM:SS` prefix, followed by `rest`. -/
def fmtYmdHms (y m d h mi s : Nat) (rest : List Char) : List Char :=
  pad4 y ++ '-' :: (pad2 m ++ '-' :: (pad2 d ++ 'T' ::
    (pad2 h ++ ':' :: (pad2 mi ++ ':' :: (pad2 s ++ rest)))))

/-- Shape (a): extended ISO-8601 with a (zero) fractional second and a
literal `Z`. -/
def fmtFracZ (y m d h mi s : Nat) : List Char :=
  fmtYmdHms y m d h mi s ('.' :: '0' :: '0' :: '0' :: '0' :: '0' :: '0' :: 'Z' :: [])

/-- Shape (b): the same without a fractional second. -/
def fmtNoFracZ (y m d h mi s : Nat) : List Char :=
  fmtYmdHms y m d h mi s ('Z' :: [])

/-- Shape (c): general ISO-8601 with an explicit zero offset designator. -/
def fmtOffset00 (y m d h mi s : Nat) : List Char :=
  fmtYmdHms y m d h mi s ('+' :: '0' :: '0' :: ':' :: '0' :: '0' :: [])

/-! ## Auxiliary lemmas -/

theorem digitVal_digitChar (k : Nat) (hk : k < 10) : digitVal (digitChar k) = k := by
  interval_cases k <;> rfl

theorem isDigit_digitChar (k : Nat) (hk : k < 10) : (digitChar k).isDigit = true := by
  interval_cases k <;> rfl

theorem parseY_pad4 (y : Nat) (hy : y ≤ 9999) (rest : List Char) :
    parseY (pad4 y ++ rest) = some (y, rest) := by
  have h1 : y / 1000 < 10 := by omega
  have h2 : y / 100 % 10 < 10 := by omega
  have h3 : y / 10 % 10 < 10 := by omega
  have h4 : y % 10 < 10 := by omega
  simp only [pad4, List.cons_append, List.nil_append, parseY,
    isDigit_digitChar _ h1, isDigit_digitChar _ h2, isDigit_digitChar _ h3,
    isDigit_digitChar _ h4, digitVal_digitChar _ h1, digitVal_digitChar _ h2,
    digitVal_digitChar _ h3, digitVal_digitChar _ h4, Bool.and_self, if_true]
  have hval : ((y / 1000 * 10 + y / 100 % 10) * 10 + y / 10 % 10) * 10 + y % 10 = y := by
    omega
  rw [hval]

theorem parse2Strict_pad2 (n : Nat) (hn : n ≤ 99) (rest : List Char) :
    parse2Strict (pad2 n ++ rest) = some (n, rest) := by
  have h1 : n / 10 < 10 := by omega
  have h2 : n % 10 < 10 := by omega
  simp only [pad2, List.cons_append, List.nil_append, parse2Strict,
    isDigit_digitChar _ h1, isDigit_digitChar _ h2,
    digitVal_digitChar _ h1, digitVal_digitChar _ h2, Bool.and_self, if_true]
  have hval : n / 10 * 10 + n % 10 = n := by omega
  rw [hval]

theorem parseMonth_pad2 (m : Nat) (h1 : 1 ≤ m) (h2 : m ≤ 12) (rest : List Char) :
    parseMonth (pad2 m ++ rest) = some (m, rest) := by
  interval_cases m <;> rfl

theorem parseDay_pad2 (d : Nat) (h1 : 1 ≤ d) (h2 : d ≤ 31) (rest : List Char) :
    parseDay (pad2 d ++ rest) = some (d, rest) := by
  interval_cases d <;> rfl

theorem parseHour_pad2 (h : Nat) (hh : h ≤ 23) (rest : List Char) :
    parseHour (pad2 h ++ rest) = some (h, rest) := by
  interval_cases h <;> rfl

theorem parseMinute_pad2 (mi : Nat) (hmi : mi ≤ 59) (rest : List Char) :
    parseMinute (pad2 mi ++ rest) = some (mi, rest) := by
  interval_cases mi <;> rfl

theorem parseSecond_pad2 (s : Nat) (hs : s ≤ 59) (rest : List Char) :
    parseSecond (pad2 s ++ rest) = some (s, rest) := by
  interval_cases s <;> rfl

theorem validYMD_iff (y m d : Nat) :
    validYMD y m d = true ↔
      (1 ≤ y ∧ y ≤ 9999 ∧ 1 ≤ m ∧ m ≤ 12 ∧ 1 ≤ d ∧ d ≤ daysInMonth y m) := by
  simp [validYMD, Bool.and_eq_true, decide_eq_true_eq, and_assoc]

theorem validHMS_iff (h mi s : Nat) :
    validHMS h mi s = true ↔ (h ≤ 23 ∧ mi ≤ 59 ∧ s ≤ 59) := by
  simp [validHMS, Bool.and_eq_true, decide_eq_true_eq, and_assoc]

theorem daysInMonth_le (y m : Nat) : daysInMonth y m ≤ 31 := by
  unfold daysInMonth
  split
  · split <;> omega
  · split <;> omega

theorem parseYmdHms_fmt (y m d h mi s : Nat) (rest : List Char)
    (hy2 : y ≤ 9999) (hm : 1 ≤ m) (hm2 : m ≤ 12)
    (hd : 1 ≤ d) (hd2 : d ≤ 31) (hh : h ≤ 23) (hmi : mi ≤ 59) (hs : s ≤ 59) :
    parseYmdHms (fmtYmdHms y m d h mi s rest) = some (y, m, d, h, mi, s, rest) := by
  simp [fmtYmdHms, parseYmdHms, parseY_pad4 y hy2, parseMonth_pad2 m hm hm2,
    parseDay_pad2 d hd hd2, parseHour_pad2 h hh, parseMinute_pad2 mi hmi,
    parseSecond_pad2 s hs, litChar, litT]

theorem strptimeFracZ_fmtFracZ (y m d h mi s : Nat)
    (hv : validYMD y m d = true) (ht : validHMS h mi s = true) :
    strptimeFracZ (fmtFracZ y m d h mi s) = some ⟨y, m, d, h, mi, s, 0, none⟩ := by
  obtain ⟨hy, hy2, hm, hm2, hd, hd2⟩ := (validYMD_iff y m d).mp hv
  obtain ⟨hh, hmi, hs⟩ := (validHMS_iff h mi s).mp ht
  have hd31 : d ≤ 31 := le_trans hd2 (daysInMonth_le y m)
  simp [strptimeFracZ, fmtFracZ,
    parseYmdHms_fmt y m d h mi s _ hy2 hm hm2 hd hd31 hh hmi hs,
    parseFrac, parseFracAux, litChar, litZ, mkNaive, hv, ht, digitVal]

theorem strptimeFracZ_fmtNoFracZ (y m d h mi s : Nat)
    (hv : validYMD y m d = true) (ht : validHMS h mi s = true) :
    strptimeFracZ (fmtNoFracZ y m d h mi s) = none := by
  obtain ⟨hy, hy2, hm, hm2, hd, hd2⟩ := (validYMD_iff y m d).mp hv
  obtain ⟨hh, hmi, hs⟩ := (validHMS_iff h mi s).mp ht
  have hd31 : d ≤ 31 := le_trans hd2 (daysInMonth_le y m)
  simp [strptimeFracZ, fmtNoFracZ,
    parseYmdHms_fmt y m d h mi s _ hy2 hm hm2 hd hd31 hh hmi hs, litChar]

theorem strptimeNoFracZ_fmtNoFracZ (y m d h mi s : Nat)
    (hv : validYMD y m d = true) (ht : validHMS h mi s = true) :
    strptimeNoFracZ (fmtNoFracZ y m d h mi s) = some ⟨y, m, d, h, mi, s, 0, none⟩ := by
  obtain ⟨hy, hy2, hm, hm2, hd, hd2⟩ := (validYMD_iff y m d).mp hv
  obtain ⟨hh, hmi, hs⟩ := (validHMS_iff h mi s).mp ht
  have hd31 : d ≤ 31 := le_trans hd2 (daysInMonth_le y m)
  simp [strptimeNoFracZ, fmtNoFracZ,
    parseYmdHms_fmt y m d h mi s _ hy2 hm hm2 hd hd31 hh hmi hs, litZ, mkNaive, hv, ht]

theorem strptimeFracZ_fmtOffset00 (y m d h mi s : Nat)
    (hv : validYMD y m d = true) (ht : validHMS h mi s = true) :
    strptimeFracZ (fmtOffset00 y m d h mi s) = none := by
  obtain ⟨hy, hy2, hm, hm2, hd, hd2⟩ := (validYMD_iff y m d).mp hv
  obtain ⟨hh, hmi, hs⟩ := (validHMS_iff h mi s).mp ht
  have hd31 : d ≤ 31 := le_trans hd2 (daysInMonth_le y m)
  simp [strptimeFracZ, fmtOffset00,
    parseYmdHms_fmt y m d h mi s _ hy2 hm hm2 hd hd31 hh hmi hs, litChar]

theorem strptimeNoFracZ_fmtOffset00 (y m d h mi s : Nat)
    (hv : validYMD y m d = true) (ht : validHMS h mi s = true) :
    strptimeNoFracZ (fmtOffset00 y m d h mi s) = none := by
  obtain ⟨hy, hy2, hm, hm2, hd, hd2⟩ := (validYMD_iff y m d).mp hv
  obtain ⟨hh, hmi, hs⟩ := (validHMS_iff h mi s).mp ht
  have hd31 : d ≤ 31 := le_trans hd2 (daysInMonth_le y m)
  simp [strptimeNoFracZ, fmtOffset00,
    parseYmdHms_fmt y m d h mi s _ hy2 hm hm2 hd hd31 hh hmi hs, litZ]

theorem digitChar_ne_Z (k : Nat) (hk : k < 10) : digitChar k ≠ 'Z' := by
  interval_cases k <;> decide

theorem pad2_no_Z (n : Nat) (hn : n ≤ 99) : ∀ c ∈ pad2 n, c ≠ 'Z' := by
  intro c hc
  simp [pad2] at hc
  rcases hc with rfl | rfl <;> exact digitChar_ne_Z _ (by omega)

theorem pad4_no_Z (n : Nat) (hn : n ≤ 9999) : ∀ c ∈ pad4 n, c ≠ 'Z' := by
  intro c hc
  simp [pad4] at hc
  rcases hc with rfl | rfl | rfl | rfl <;> exact digitChar_ne_Z _ (by omega)

theorem replaceZ_of_no_Z (s : List Char) (h : ∀ c ∈ s, c ≠ 'Z') : replaceZ s = s := by
  induction s with
  | nil => rfl
  | cons c rest ih =>
    have hc : c ≠ 'Z' := h c (by simp)
    simp only [replaceZ, if_neg hc]
    rw [ih (fun x hx => h x (by simp [hx]))]

theorem fmtOffset00_no_Z (y m d h mi s : Nat)
    (hy : y ≤ 9999) (hm : m ≤ 99) (hd : d ≤ 99) (hh : h ≤ 99) (hmi : mi ≤ 99)
    (hs : s ≤ 99) :
    ∀ c ∈ fmtOffset00 y m d h mi s, c ≠ 'Z' := by
  intro c hc
  simp only [fmtOffset00, fmtYmdHms, List.mem_append, List.mem_cons,
    List.not_mem_nil, or_false] at hc
  rcases hc with hc | rfl | hc | rfl | hc | rfl | hc | rfl | hc | rfl | hc | rfl | rfl | rfl | rfl | rfl | rfl
  · exact pad4_no_Z y hy c hc
  · decide
  · exact pad2_no_Z m hm c hc
  · decide
  · exact pad2_no_Z d hd c hc
  · decide
  · exact pad2_no_Z h hh c hc
  · decide
  · exact pad2_no_Z mi hmi c hc
  · decide
  · exact pad2_no_Z s hs c hc
  · decide
  · decide
  · decide
  · decide
  · decide
  · decide

theorem isoDate_pre (y m d : Nat) (tail : List Char)
    (hy : y ≤ 9999) (hm : m ≤ 99) (hd : d ≤ 99) :
    isoDate (pad4 y ++ '-' :: (pad2 m ++ '-' :: (pad2 d ++ tail))) = some (y, m, d, tail) := by
  simp [isoDate, parseY_pad4 y hy, parse2Strict_pad2 m hm, parse2Strict_pad2 d hd, litChar]

theorem isoTime_pre (h mi s : Nat) (tail : List Char)
    (hh : h ≤ 99) (hmi : mi ≤ 99) (hs : s ≤ 99) :
    isoTime (pad2 h ++ ':' :: (pad2 mi ++ ':' :: (pad2 s ++ '+' :: tail))) =
      some (h, mi, s, 0, '+' :: tail) := by
  simp [isoTime, parse2Strict_pad2 h hh, parse2Strict_pad2 mi hmi, parse2Strict_pad2 s hs]

theorem isoTzOffset_00 :
    isoTzOffset ('+' :: '0' :: '0' :: ':' :: '0' :: '0' :: []) = some (some 0, []) := by
  rfl

theorem fromisoformat_fmtOffset00 (y m d h mi s : Nat)
    (hv : validYMD y m d = true) (ht : validHMS h mi s = true) :
    fromisoformat (fmtOffset00 y m d h mi s) = some ⟨y, m, d, h, mi, s, 0, some 0⟩ := by
  obtain ⟨hy, hy2, hm, hm2, hd, hd2⟩ := (validYMD_iff y m d).mp hv
  obtain ⟨hh, hmi, hs⟩ := (validHMS_iff h mi s).mp ht
  have hd31 : d ≤ 31 := le_trans hd2 (daysInMonth_le y m)
  have h1 := isoDate_pre y m d
    ('T' :: (pad2 h ++ ':' :: (pad2 mi ++ ':' ::
      (pad2 s ++ '+' :: '0' :: '0' :: ':' :: '0' :: '0' :: []))))
    hy2 (by omega) (by omega)
  have h2 := isoTime_pre h mi s ('0' :: '0' :: ':' :: '0' :: '0' :: [])
    (by omega) (by omega) (by omega)
  simp [fromisoformat, fmtOffset00, fmtYmdHms, h1, h2, isoTzOffset_00, hv, ht]

theorem parse_date_fmtFracZ (y m d h mi s : Nat)
    (hv : validYMD y m d = true) (ht : validHMS h mi s = true) :
    parse_date (fmtFracZ y m d h mi s) = some ⟨y, m, d, h, mi, s, 0, none⟩ := by
  simp [parse_date, strptimeFracZ_fmtFracZ y m d h mi s hv ht]

theorem parse_date_fmtNoFracZ (y m d h mi s : Nat)
    (hv : validYMD y m d = true) (ht : validHMS h mi s = true) :
    parse_date (fmtNoFracZ y m d h mi s) = some ⟨y, m, d, h, mi, s, 0, none⟩ := by
  simp [parse_date, strptimeFracZ_fmtNoFracZ y m d h mi s hv ht,
    strptimeNoFracZ_fmtNoFracZ y m d h mi s hv ht]

theorem parse_date_fmtOffset00 (y m d h mi s : Nat)
    (hv : validYMD y m d = true) (ht : validHMS h mi s = true) :
    parse_date (fmtOffset00 y m d h mi s) = some ⟨y, m, d, h, mi, s, 0, some 0⟩ := by
  obtain ⟨hy, hy2, hm, hm2, hd, hd2⟩ := (validYMD_iff y m d).mp hv
  obtain ⟨hh, hmi, hs⟩ := (validHMS_iff h mi s).mp ht
  have hd31 : d ≤ 31 := le_trans hd2 (daysInMonth_le y m)
  have hnoZ : replaceZ (fmtOffset00 y m d h mi s) = fmtOffset00 y m d h mi s :=
    replaceZ_of_no_Z _ (fmtOffset00_no_Z y m d h mi s hy2 (by omega) (by omega)
      (by omega) (by omega) (by omega))
  simp [parse_date, strptimeFracZ_fmtOffset00 y m d h mi s hv ht,
    strptimeNoFracZ_fmtOffset00 y m d h mi s hv ht, hnoZ,
    fromisoformat_fmtOffset00 y m d h mi s hv ht]

theorem analyzeStep_eq (now : Datetime) (c : ChannelSummary) (p : Datetime) (days : Int)
    (hp : parse_date c.published_at = some p) (hd : subDays now p = some days)
    (hne : days ≠ 0) :
    analyzeStep now c =
      some ⟨c.title, c.channel_id, c.subscriber_count, c.view_count, c.published_at, days,
        (c.subscriber_count : ℚ) / (days : ℚ), (c.view_count : ℚ) / (days : ℚ),
        (c.subscriber_count : ℚ) / (days : ℚ) * 100⟩ := by
  simp [analyzeStep, hp, hd, hne]

theorem analyzeList_length (now : Datetime) (cs : List ChannelSummary)
    (rs : List GrowthRecord) (h : analyzeList now cs = some rs) :
    rs.length = cs.length := by
  induction cs generalizing rs with
  | nil =>
    simp only [analyzeList, Option.some.injEq] at h
    subst h
    rfl
  | cons c rest ih =>
    cases hstep : analyzeStep now c with
    | none => rw [analyzeList, hstep] at h; simp at h
    | some r =>
      cases hrest : analyzeList now rest with
      | none => rw [analyzeList, hstep, hrest] at h; simp at h
      | some rs2 =>
        rw [analyzeList, hstep, hrest] at h
        have h2 := Option.some.inj h
        subst h2
        rw [List.length_cons, List.length_cons, ih rs2 hrest]

theorem analyzeList_total (now : Datetime) (cs : List ChannelSummary)
    (h : ∀ c ∈ cs, (analyzeStep now c).isSome = true) :
    ∃ rs, analyzeList now cs = some rs := by
  induction cs with
  | nil => exact ⟨[], rfl⟩
  | cons c rest ih =>
    obtain ⟨r, hr⟩ := Option.isSome_iff_exists.mp (h c (by simp))
    obtain ⟨rs, hrs⟩ := ih (fun x hx => h x (by simp [hx]))
    refine ⟨r :: rs, ?_⟩
    rw [analyzeList, hr, hrs]
    rfl

theorem growthLe_trans (a b c : GrowthRecord) (h1 : growthLe a b) (h2 : growthLe b c) :
    growthLe a c := by
  simp only [growthLe, decide_eq_true_eq] at h1 h2 ⊢
  exact le_trans h2 h1

theorem growthLe_total (a b : GrowthRecord) : growthLe a b || growthLe b a := by
  simp only [growthLe, Bool.or_eq_true, decide_eq_true_eq]
  exact le_total _ _

/-! ## Claim theorems -/

/-- C4: for every channel whose elapsed-day count `d` is positive, the
analyzer computes `daily_subs = subscriber_count / d`,
`daily_views = view_count / d` and
`growth_rate = (subscriber_count / d) * 100`, the latter numerically
identical to `daily_subs * 100`. -/
theorem C4_growth_metrics (now : Datetime) (c : ChannelSummary) (p : Datetime)
    (days : Int) (hp : parse_date c.published_at = some p)
    (hd : subDays now p = some days) (hpos : 0 < days) :
    ∃ r, analyzeStep now c = some r ∧
      r.days_since_creation = days ∧
      r.daily_subs = (c.subscriber_count : ℚ) / (days : ℚ) ∧
      r.daily_views = (c.view_count : ℚ) / (days : ℚ) ∧
      r.growth_rate = (c.subscriber_count : ℚ) / (days : ℚ) * 100 ∧
      r.growth_rate = r.daily_subs * 100 :=
  ⟨_, analyzeStep_eq now c p days hp hd (by omega), rfl, rfl, rfl, rfl, rfl⟩

/-- C4 witness: a channel created exactly 100 days before the analysis
instant, with 1000 subscribers and 50000 views, yields
`daily_subs = 10`, `daily_views = 500`, `growth_rate = 1000`. -/
theorem C4_growth_metrics_witness :
    ∃ r, analyzeStep ⟨2020, 4, 10, 0, 0, 0, 0, none⟩
        ⟨"idA", "A", 1000, 50000, 10, ("2020-01-01T00:00:00Z".data)⟩ = some r ∧
      r.days_since_creation = 100 ∧
      r.daily_subs = ((1000 : Nat) : ℚ) / ((100 : Int) : ℚ) ∧
      r.daily_views = ((50000 : Nat) : ℚ) / ((100 : Int) : ℚ) ∧
      r.growth_rate = ((1000 : Nat) : ℚ) / ((100 : Int) : ℚ) * 100 ∧
      r.growth_rate = r.daily_subs * 100 :=
  C4_growth_metrics ⟨2020, 4, 10, 0, 0, 0, 0, none⟩
    ⟨"idA", "A", 1000, 50000, 10, ("2020-01-01T00:00:00Z".data)⟩
    ⟨2020, 1, 1, 0, 0, 0, 0, none⟩ 100 rfl rfl (by omega)

/-- C5: when every channel of the input parses and has a positive
elapsed-day count, the analyzer returns exactly one record per input
channel, and the empty input yields the empty output, not an error. -/
theorem C5_cardinality (now : Datetime) (days : Nat) (channels : List ChannelSummary)
    (h : ∀ c ∈ channels, ∃ p dz, parse_date c.published_at = some p ∧
      subDays now p = some dz ∧ 0 < dz) :
    (∃ out, analyze_channels_growth channels now days = some out ∧
      out.length = channels.length) ∧
    analyze_channels_growth [] now days = some [] := by
  constructor
  · have htot : ∀ c ∈ channels, (analyzeStep now c).isSome = true := by
      intro c hc
      obtain ⟨p, dz, hp, hdz, hpos⟩ := h c hc
      rw [analyzeStep_eq now c p dz hp hdz (by omega)]
      rfl
    obtain ⟨rs, hrs⟩ := analyzeList_total now channels htot
    refine ⟨rs.mergeSort growthLe, ?_, ?_⟩
    · rw [analyze_channels_growth, hrs]
    · rw [List.length_mergeSort]
      exact analyzeList_length now channels rs hrs
  · simp [analyze_channels_growth, analyzeList]

/-- C5 witness: a singleton input with a positive elapsed-day count gives a
singleton output, and the empty input gives the empty output. -/
theorem C5_cardinality_witness :
    (∃ out, analyze_channels_growth
        [⟨"idA", "A", 1000, 50000, 10, ("2020-01-01T00:00:00Z".data)⟩]
        ⟨2020, 4, 10, 0, 0, 0, 0, none⟩ 30 = some out ∧ out.length = 1) ∧
    analyze_channels_growth [] ⟨2020, 4, 10, 0, 0, 0, 0, none⟩ 30 = some [] :=
  C5_cardinality ⟨2020, 4, 10, 0, 0, 0, 0, none⟩ 30
    [⟨"idA", "A", 1000, 50000, 10, ("2020-01-01T00:00:00Z".data)⟩]
    (by
      intro c hc
      rw [List.mem_singleton] at hc
      subst hc
      exact ⟨⟨2020, 1, 1, 0, 0, 0, 0, none⟩, 100, rfl, rfl, by omega⟩)

/-- C9: the output of `analyze_channels_growth` does not depend on its
`days` parameter (default 30 in the source), which the function body never
reads. -/
theorem C9_days_parameter_unread (channels : List ChannelSummary) (now : Datetime)
    (d1 d2 : Nat) :
    analyze_channels_growth channels now d1 = analyze_channels_growth channels now d2 := rfl

/-- C10: a record produced by the analyzer carries its channel's `title`,
`channel_id`, `subscriber_count`, `view_count` and raw `published_at`
string through unchanged. -/
theorem C10_fields_preserved (now : Datetime) (c : ChannelSummary) (r : GrowthRecord)
    (h : analyzeStep now c = some r) :
    r.channel_name = c.title ∧ r.channel_id = c.channel_id ∧
    r.current_subs = c.subscriber_count ∧ r.current_views = c.view_count ∧
    r.published_at = c.published_at := by
  cases hp : parse_date c.published_at with
  | none => simp [analyzeStep, hp] at h
  | some p =>
    cases hd : subDays now p with
    | none => simp [analyzeStep, hp, hd] at h
    | some days =>
      by_cases hz : days = 0
      · simp [analyzeStep, hp, hd, hz] at h
      · rw [analyzeStep_eq now c p days hp hd hz] at h
        have h2 := Option.some.inj h
        subst h2
        exact ⟨rfl, rfl, rfl, rfl, rfl⟩

/-- C10 witness: the singleton analysis of C4's channel keeps all carried
fields verbatim. -/
theorem C10_fields_preserved_witness :
    ∃ r, analyzeStep ⟨2020, 4, 10, 0, 0, 0, 0, none⟩
        ⟨"idA", "A", 1000, 50000, 10, ("2020-01-01T00:00:00Z".data)⟩ = some r ∧
      (r.channel_name = "A" ∧ r.channel_id = "idA" ∧ r.current_subs = 1000 ∧
        r.current_views = 50000 ∧ r.published_at = ("2020-01-01T00:00:00Z".data)) := by
  refine ⟨_, analyzeStep_eq ⟨2020, 4, 10, 0, 0, 0, 0, none⟩
    ⟨"idA", "A", 1000, 50000, 10, ("2020-01-01T00:00:00Z".data)⟩
    ⟨2020, 1, 1, 0, 0, 0, 0, none⟩ 100 rfl rfl (by omega), ?_⟩
  exact C10_fields_preserved ⟨2020, 4, 10, 0, 0, 0, 0, none⟩
    ⟨"idA", "A", 1000, 50000, 10, ("2020-01-01T00:00:00Z".data)⟩ _
    (analyzeStep_eq ⟨2020, 4, 10, 0, 0, 0, 0, none⟩
      ⟨"idA", "A", 1000, 50000, 10, ("2020-01-01T00:00:00Z".data)⟩
      ⟨2020, 1, 1, 0, 0, 0, 0, none⟩ 100 rfl rfl (by omega))

/-- C3: the analyzer's output is sorted descending by `growth_rate`
(adjacent pairs satisfy `growth_rate[i] ≥ growth_rate[i+1]`), and the sort
is stable: for every rate value, the output records carrying that rate are
exactly the pre-sort records carrying it, in their original input order. -/
theorem C3_sorted_stable (now : Datetime) (days : Nat) (channels : List ChannelSummary)
    (results : List GrowthRecord) (h : analyzeList now channels = some results) :
    ∃ out, analyze_channels_growth channels now days = some out ∧
      out.Pairwise (fun a b => b.growth_rate ≤ a.growth_rate) ∧
      ∀ q : ℚ, out.filter (fun r => decide (r.growth_rate = q)) =
        results.filter (fun r => decide (r.growth_rate = q)) := by
  refine ⟨results.mergeSort growthLe, ?_, ?_, ?_⟩
  · rw [analyze_channels_growth, h]
  · have hs := List.sorted_mergeSort growthLe_trans growthLe_total results
    exact hs.imp (fun hab => by simpa [growthLe, decide_eq_true_eq] using hab)
  · intro q
    have hsub : List.Sublist (results.filter (fun r => decide (r.growth_rate = q))) results :=
      List.filter_sublist results
    have hpair : (results.filter (fun r => decide (r.growth_rate = q))).Pairwise
        (fun a b => growthLe a b = true) := by
      apply List.pairwise_of_forall_mem_list
      intro a ha b hb
      have ha2 := (List.mem_filter.mp ha).2
      have hb2 := (List.mem_filter.mp hb).2
      rw [decide_eq_true_eq] at ha2 hb2
      simp [growthLe, ha2, hb2]
    have hstab := List.sublist_mergeSort growthLe_trans growthLe_total hpair hsub
    have hfsub := hstab.filter (fun r => decide (r.growth_rate = q))
    rw [List.filter_filter] at hfsub
    have hff : (fun r => decide (r.growth_rate = q) && decide (r.growth_rate = q)) =
        (fun r : GrowthRecord => decide (r.growth_rate = q)) := by
      funext r
      rw [Bool.and_self]
    rw [hff] at hfsub
    have hperm : List.Perm
        ((results.mergeSort growthLe).filter (fun r => decide (r.growth_rate = q)))
        (results.filter (fun r => decide (r.growth_rate = q))) :=
      (List.mergeSort_perm results growthLe).filter _
    exact (hfsub.eq_of_length hperm.length_eq.symm).symm

/-- C3 witness: two channels tied at growth rate 50 (one subscriber over
two elapsed days each) keep their original relative order. -/
theorem C3_sorted_stable_witness :
    ∃ out, analyze_channels_growth
        [⟨"id1", "one", 1, 7, 0, ("2024-01-01T00:00:00Z".data)⟩,
         ⟨"id2", "two", 1, 9, 0, ("2024-01-01T00:00:00Z".data)⟩]
        ⟨2024, 1, 3, 0, 0, 0, 0, none⟩ 30 = some out ∧
      out.Pairwise (fun a b => b.growth_rate ≤ a.growth_rate) ∧
      ∀ q : ℚ, out.filter (fun r => decide (r.growth_rate = q)) =
        [⟨"one", "id1", 1, 7, ("2024-01-01T00:00:00Z".data), 2, 1/2, 7/2, 50⟩,
         ⟨"two", "id2", 1, 9, ("2024-01-01T00:00:00Z".data), 2, 1/2, 9/2, 50⟩].filter
          (fun r => decide (r.growth_rate = q)) := by
  have h1 : analyzeStep ⟨2024, 1, 3, 0, 0, 0, 0, none⟩
      ⟨"id1", "one", 1, 7, 0, ("2024-01-01T00:00:00Z".data)⟩ =
      some ⟨"one", "id1", 1, 7, ("2024-01-01T00:00:00Z".data), 2, 1/2, 7/2, 50⟩ := by
    rw [analyzeStep_eq ⟨2024, 1, 3, 0, 0, 0, 0, none⟩
      ⟨"id1", "one", 1, 7, 0, ("2024-01-01T00:00:00Z".data)⟩
      ⟨2024, 1, 1, 0, 0, 0, 0, none⟩ 2 rfl rfl (by omega)]
    simp only [Option.some.injEq, GrowthRecord.mk.injEq]
    norm_num
  have h2 : analyzeStep ⟨2024, 1, 3, 0, 0, 0, 0, none⟩
      ⟨"id2", "two", 1, 9, 0, ("2024-01-01T00:00:00Z".data)⟩ =
      some ⟨"two", "id2", 1, 9, ("2024-01-01T00:00:00Z".data), 2, 1/2, 9/2, 50⟩ := by
    rw [analyzeStep_eq ⟨2024, 1, 3, 0, 0, 0, 0, none⟩
      ⟨"id2", "two", 1, 9, 0, ("2024-01-01T00:00:00Z".data)⟩
      ⟨2024, 1, 1, 0, 0, 0, 0, none⟩ 2 rfl rfl (by omega)]
    simp only [Option.some.injEq, GrowthRecord.mk.injEq]
    norm_num
  exact C3_sorted_stable ⟨2024, 1, 3, 0, 0, 0, 0, none⟩ 30
    [⟨"id1", "one", 1, 7, 0, ("2024-01-01T00:00:00Z".data)⟩,
     ⟨"id2", "two", 1, 9, 0, ("2024-01-01T00:00:00Z".data)⟩]
    [⟨"one", "id1", 1, 7, ("2024-01-01T00:00:00Z".data), 2, 1/2, 7/2, 50⟩,
     ⟨"two", "id2", 1, 9, ("2024-01-01T00:00:00Z".data), 2, 1/2, 9/2, 50⟩]
    (by rw [analyzeList, h1, analyzeList, h2, analyzeList]; rfl)

/-- C6: with both bounds supplied (and everything naive, as in the source's
invocation), the creation-date filter keeps a channel if and only if
`min_date ≤ published_at ≤ max_date` — inclusive at both ends. -/
theorem C6_inclusive_bounds (minD maxD : Datetime) (c : ChannelSummary) (p : Datetime)
    (hp : parse_date c.published_at = some p)
    (h1 : p.tz = none) (h2 : minD.tz = none) (h3 : maxD.tz = none) :
    (channelKeep (some minD) (some maxD) c = some true ↔
      (naiveMicros minD ≤ naiveMicros p ∧ naiveMicros p ≤ naiveMicros maxD)) ∧
    (channelKeep (some minD) (some maxD) c = some false ↔
      (naiveMicros p < naiveMicros minD ∨ naiveMicros maxD < naiveMicros p)) := by
  by_cases hlt : naiveMicros p < naiveMicros minD
  · constructor
    · simp [channelKeep, hp, pyLt, pyGt, h1, h2, h3, hlt]
    · simp [channelKeep, hp, pyLt, pyGt, h1, h2, h3, hlt]
  · by_cases hgt : naiveMicros maxD < naiveMicros p
    · constructor
      · simp [channelKeep, hp, pyLt, pyGt, h1, h2, h3, hlt, hgt]
      · simp [channelKeep, hp, pyLt, pyGt, h1, h2, h3, hlt, hgt]
    · constructor
      · simp [channelKeep, hp, pyLt, pyGt, h1, h2, h3, hlt, hgt]
        omega
      · simp [channelKeep, hp, pyLt, pyGt, h1, h2, h3, hlt, hgt]

/-- C6 witness: with bounds 2020-01-01 and 2020-12-31 (midnight), a channel
published 2021-01-01 is excluded, and one published exactly on the lower
bound is retained. -/
theorem C6_inclusive_bounds_witness :
    ((channelKeep (some ⟨2020, 1, 1, 0, 0, 0, 0, none⟩)
        (some ⟨2020, 12, 31, 0, 0, 0, 0, none⟩)
        ⟨"cid", "late", 0, 0, 0, ("2021-01-01T00:00:00Z".data)⟩ = some true ↔
      (naiveMicros ⟨2020, 1, 1, 0, 0, 0, 0, none⟩ ≤
          naiveMicros ⟨2021, 1, 1, 0, 0, 0, 0, none⟩ ∧
        naiveMicros ⟨2021, 1, 1, 0, 0, 0, 0, none⟩ ≤
          naiveMicros ⟨2020, 12, 31, 0, 0, 0, 0, none⟩)) ∧
    (channelKeep (some ⟨2020, 1, 1, 0, 0, 0, 0, none⟩)
        (some ⟨2020, 12, 31, 0, 0, 0, 0, none⟩)
        ⟨"cid", "late", 0, 0, 0, ("2021-01-01T00:00:00Z".data)⟩ = some false ↔
      (naiveMicros ⟨2021, 1, 1, 0, 0, 0, 0, none⟩ <
          naiveMicros ⟨2020, 1, 1, 0, 0, 0, 0, none⟩ ∨
        naiveMicros ⟨2020, 12, 31, 0, 0, 0, 0, none⟩ <
          naiveMicros ⟨2021, 1, 1, 0, 0, 0, 0, none⟩))) ∧
    channelKeep (some ⟨2020, 1, 1, 0, 0, 0, 0, none⟩)
      (some ⟨2020, 12, 31, 0, 0, 0, 0, none⟩)
      ⟨"cid", "late", 0, 0, 0, ("2021-01-01T00:00:00Z".data)⟩ = some false ∧
    channelKeep (some ⟨2020, 1, 1, 0, 0, 0, 0, none⟩)
      (some ⟨2020, 12, 31, 0, 0, 0, 0, none⟩)
      ⟨"cid", "onmin", 0, 0, 0, ("2020-01-01T00:00:00Z".data)⟩ = some true :=
  ⟨C6_inclusive_bounds ⟨2020, 1, 1, 0, 0, 0, 0, none⟩ ⟨2020, 12, 31, 0, 0, 0, 0, none⟩
      ⟨"cid", "late", 0, 0, 0, ("2021-01-01T00:00:00Z".data)⟩
      ⟨2021, 1, 1, 0, 0, 0, 0, none⟩ rfl rfl rfl rfl,
    by decide, by decide⟩

theorem searchFilter_cons (minD maxD : Option Datetime) (c : ChannelSummary)
    (rest : List ChannelSummary) :
    searchFilter minD maxD (c :: rest) =
      (channelKeep minD maxD c).bind fun keep =>
        (searchFilter minD maxD rest).bind fun others =>
          some (if keep then c :: others else others) := rfl

/-- C8: the creation-date filtering step is idempotent — filtering an
already-filtered list with the same bounds returns it unchanged. -/
theorem C8_filter_idempotent (minD maxD : Option Datetime)
    (cs out : List ChannelSummary) (h : searchFilter minD maxD cs = some out) :
    searchFilter minD maxD out = some out := by
  induction cs generalizing out with
  | nil =>
    simp only [searchFilter, Option.some.injEq] at h
    subst h
    rfl
  | cons c rest ih =>
    rw [searchFilter_cons] at h
    cases hk : channelKeep minD maxD c with
    | none => rw [hk] at h; simp at h
    | some b =>
      rw [hk] at h
      simp only [Option.some_bind] at h
      cases hrest : searchFilter minD maxD rest with
      | none => rw [hrest] at h; simp at h
      | some os =>
        rw [hrest] at h
        simp only [Option.some_bind] at h
        have h2 := Option.some.inj h
        cases b with
        | false =>
          simp only [Bool.false_eq_true, if_false] at h2
          subst h2
          exact ih os hrest
        | true =>
          simp only [if_true] at h2
          subst h2
          rw [searchFilter_cons, hk, ih os hrest]
          rfl

/-- C8 witness: refiltering the filtered two-channel list of the C6
scenario leaves it unchanged. -/
theorem C8_filter_idempotent_witness :
    searchFilter (some ⟨2020, 1, 1, 0, 0, 0, 0, none⟩) none
      [⟨"cid", "onmin", 0, 0, 0, ("2020-01-01T00:00:00Z".data)⟩] =
      some [⟨"cid", "onmin", 0, 0, 0, ("2020-01-01T00:00:00Z".data)⟩] :=
  C8_filter_idempotent (some ⟨2020, 1, 1, 0, 0, 0, 0, none⟩) none
    [⟨"cid", "late", 0, 0, 0, ("2019-01-01T00:00:00Z".data)⟩,
     ⟨"cid", "onmin", 0, 0, 0, ("2020-01-01T00:00:00Z".data)⟩]
    [⟨"cid", "onmin", 0, 0, 0, ("2020-01-01T00:00:00Z".data)⟩] (by decide)

/-- C1: the analyzer applies no policy for non-positive elapsed days.  A
channel published on the day of the analysis makes the whole run divide by
zero (the analysis fails, modelled as `none` — a `ZeroDivisionError`, not
an exclusion or a floor), and a future-dated channel produces a negative
growth rate that is carried into the ranking. -/
theorem C1_no_policy_for_nonpositive_days :
    parse_date ("2024-01-01T00:00:00Z".data) = some ⟨2024, 1, 1, 0, 0, 0, 0, none⟩ ∧
    subDays ⟨2024, 1, 1, 12, 0, 0, 0, none⟩ ⟨2024, 1, 1, 0, 0, 0, 0, none⟩ = some 0 ∧
    analyze_channels_growth [⟨"idZ", "sameday", 5, 5, 1, ("2024-01-01T00:00:00Z".data)⟩]
      ⟨2024, 1, 1, 12, 0, 0, 0, none⟩ 30 = none ∧
    (∃ r, analyzeStep ⟨2024, 1, 1, 12, 0, 0, 0, none⟩
        ⟨"idF", "future", 5, 5, 1, ("2024-01-02T00:00:00Z".data)⟩ = some r ∧
      r.growth_rate < 0) := by
  refine ⟨rfl, rfl, rfl, ?_⟩
  refine ⟨_, analyzeStep_eq ⟨2024, 1, 1, 12, 0, 0, 0, none⟩
    ⟨"idF", "future", 5, 5, 1, ("2024-01-02T00:00:00Z".data)⟩
    ⟨2024, 1, 2, 0, 0, 0, 0, none⟩ (-1) rfl (by decide) (by omega), ?_⟩
  norm_num

/-- C2 counterexample: the same instant written with a `Z` marker (shape b)
and with an explicit `+00:00` offset (the general ISO-8601 shape) both
parse, but to unequal structured values: the former is naive, the latter
carries a UTC offset, and Python equality between them is `False`. -/
theorem C2_counterexample :
    parse_date ("1970-01-01T00:00:00Z".data) = some ⟨1970, 1, 1, 0, 0, 0, 0, none⟩ ∧
    parse_date ("1970-01-01T00:00:00+00:00".data) =
      some ⟨1970, 1, 1, 0, 0, 0, 0, some 0⟩ ∧
    parse_date ("1970-01-01T00:00:00Z".data) ≠
      parse_date ("1970-01-01T00:00:00+00:00".data) ∧
    pyEq ⟨1970, 1, 1, 0, 0, 0, 0, none⟩ ⟨1970, 1, 1, 0, 0, 0, 0, some 0⟩ = false :=
  ⟨rfl, rfl, by decide, rfl⟩

/-- C2 (amended): for every valid instant, shapes (a) and (b) parse to
equal naive structured values; the explicit-offset shape (c) parses to the
same civil fields but tagged with the UTC offset, a value unequal — also
under Python equality — to the shape (a)/(b) result. -/
theorem C2_shapes_amended (y m d h mi s : Nat)
    (hv : validYMD y m d = true) (ht : validHMS h mi s = true) :
    parse_date (fmtFracZ y m d h mi s) = parse_date (fmtNoFracZ y m d h mi s) ∧
    parse_date (fmtFracZ y m d h mi s) = some ⟨y, m, d, h, mi, s, 0, none⟩ ∧
    parse_date (fmtOffset00 y m d h mi s) = some ⟨y, m, d, h, mi, s, 0, some 0⟩ ∧
    parse_date (fmtFracZ y m d h mi s) ≠ parse_date (fmtOffset00 y m d h mi s) ∧
    pyEq ⟨y, m, d, h, mi, s, 0, none⟩ ⟨y, m, d, h, mi, s, 0, some 0⟩ = false := by
  have ha := parse_date_fmtFracZ y m d h mi s hv ht
  have hb := parse_date_fmtNoFracZ y m d h mi s hv ht
  have hc := parse_date_fmtOffset00 y m d h mi s hv ht
  refine ⟨ha.trans hb.symm, ha, hc, ?_, rfl⟩
  rw [ha, hc]
  simp

/-- C2 witness: the amended statement instantiated at the epoch instant. -/
theorem C2_shapes_amended_witness :
    validYMD 1970 1 1 = true ∧ validHMS 0 0 0 = true ∧
    (parse_date (fmtFracZ 1970 1 1 0 0 0) = parse_date (fmtNoFracZ 1970 1 1 0 0 0) ∧
      parse_date (fmtFracZ 1970 1 1 0 0 0) = some ⟨1970, 1, 1, 0, 0, 0, 0, none⟩ ∧
      parse_date (fmtOffset00 1970 1 1 0 0 0) = some ⟨1970, 1, 1, 0, 0, 0, 0, some 0⟩ ∧
      parse_date (fmtFracZ 1970 1 1 0 0 0) ≠ parse_date (fmtOffset00 1970 1 1 0 0 0) ∧
      pyEq ⟨1970, 1, 1, 0, 0, 0, 0, none⟩ ⟨1970, 1, 1, 0, 0, 0, 0, some 0⟩ = false) :=
  ⟨rfl, rfl, C2_shapes_amended 1970 1 1 0 0 0 rfl rfl⟩

/-- C7: a string accepted by none of the three parse attempts makes
`parse_date` fail with a propagating error (modelled `none`); the result is
never defaulted to any instant. -/
theorem C7_unparsable_fails (s : List Char)
    (ha : strptimeFracZ s = none) (hb : strptimeNoFracZ s = none)
    (hc : fromisoformat (replaceZ s) = none) :
    parse_date s = none := by
  simp [parse_date, ha, hb, hc]

/-- C7 witness: a non-timestamp string fails all three attempts and makes
`parse_date` fail. -/
theorem C7_unparsable_fails_witness :
    strptimeFracZ ("not-a-date".data) = none ∧
    strptimeNoFracZ ("not-a-date".data) = none ∧
    fromisoformat (replaceZ ("not-a-date".data)) = none ∧
    parse_date ("not-a-date".data) = none :=
  ⟨rfl, rfl, rfl, C7_unparsable_fails ("not-a-date".data) rfl rfl rfl⟩

end YTSurvey
